import Mathlib

/-! createrepo_c: single-package metadata extraction and the
`MetadataLocation` mapping interface.

A shallow embedding of `src/parsepkg.c` (`init_package_parser`,
`xml_from_package_file`) and of the mapping interface of
`src/python/locate_metadata-py.c` (`check_MetadataLocationStatus`, `length`,
`getitem`).

The C functions talk to the outside world only through library calls (rpm,
libc, glib, CPython) and through other modules of the project (`misc.c`,
`parsehdr.c`).  Each such collaborator is an oracle field of `Externals`; the
embedded functions return, next to their C return value, the list of external
calls they issued, in program order.
-/

namespace Createrepo

/-! ## Data model -/

/-- The rpm file descriptor `FD_t`, as an abstract handle. -/
abbrev FD_t := Nat

/-- The rpm `Header` object, as an abstract handle. -/
abbrev Header := Nat

/-- The rpm transaction set `rpmts`, as an abstract handle. -/
abbrev rpmts := Nat

/-- The `struct XmlStruct` returned by `xml_from_package_file`: three nullable
strings (`none` is `NULL`). -/
structure XmlStruct where
  primary : Option String
  filelists : Option String
  other : Option String
  deriving DecidableEq, Repr

/-- Modelled from the spec: the enumeration `ChecksumType` is declared in
`constants.h`, which is not among the sources; the spec gives it as the closed
enumeration {MD5, SHA1, SHA256}.  A C enum parameter can carry any integer, so
`unknown raw` stands for a value that equals none of the three case labels. -/
inductive ChecksumType where
  | PKG_CHECKSUM_MD5
  | PKG_CHECKSUM_SHA1
  | PKG_CHECKSUM_SHA256
  | unknown (raw : Int)
  deriving DecidableEq, Repr

/-- The two fields of `struct stat` that `xml_from_package_file` reads. -/
structure stat_t where
  st_mtime : Int
  st_size : Int
  deriving DecidableEq, Repr

/-- Modelled from the spec: `struct HeaderRangeStruct` is declared in `misc.h`,
which is not among the sources; the spec gives it as {start: u64, end: u64}. -/
structure HeaderRangeStruct where
  start : Nat
  end_ : Nat
  deriving DecidableEq, Repr

/-- The argument record of the call `xml_from_header(hdr, mtime, size, checksum,
checksum_type_str, location_href, location_base, changelog_limit, hdr_r.start,
hdr_r.end)`, in argument order.  `checksum` and `location_base` are nullable. -/
structure XmlFromHeaderArgs where
  hdr : Header
  mtime : Int
  size : Int
  checksum : Option String
  checksum_type : String
  location_href : String
  location_base : Option String
  changelog_limit : Int
  hdr_start : Nat
  hdr_end : Nat
  deriving DecidableEq, Repr

/-- One external call, with its arguments (and, for `Fopen`, the handle it
returned). -/
inductive Call where
  | g_critical (msg : String)
  | g_debug (msg : String)
  | Fopen (filename : String) (fmode : String) (ret : Option FD_t)
  | rpmReadPackageFile (ts : Option rpmts) (fd : FD_t)
  | Fclose (fd : FD_t)
  | stat (filename : String)
  | compute_file_checksum (filename : String) (checksum_type : ChecksumType)
  | get_header_byte_range (filename : String)
  | xml_from_header (args : XmlFromHeaderArgs)
  | free (checksum : Option String)
  | headerFree (hdr : Header)
  | rpmReadConfigFiles
  | rpmtsCreate
  | rpmtsSetVSFlags (ts : Option rpmts) (vsflags : Nat)
  deriving DecidableEq, Repr

/-- Return codes of `rpmReadPackageFile` (`rpmRC` of the rpm library). -/
def RPMRC_OK : Int := 0

/-- The rpm return code "signature is OK, but key is not trusted". -/
def RPMRC_NOTTRUSTED : Int := 3

/-- The rpm return code "public key is unavailable". -/
def RPMRC_NOKEY : Int := 4

/-! ## External collaborators -/

/-- The behaviour of the collaborators of `xml_from_package_file`.
`Fopen` yields `none` for a `NULL` handle; `rpmReadPackageFile` yields its
return code and the header it stores through `&hdr`; `stat` yields its return
value and the buffer it fills; `compute_file_checksum` yields `none` for
`NULL`. -/
structure Externals where
  Fopen : String → String → Option FD_t
  rpmReadPackageFile : Option rpmts → FD_t → Int × Header
  stat : String → Int × stat_t
  compute_file_checksum : String → ChecksumType → Option String
  get_header_byte_range : String → HeaderRangeStruct
  xml_from_header : XmlFromHeaderArgs → XmlStruct

/-! ## `xml_from_package_file` -/

/-- The first `switch` of `xml_from_package_file` (lines 70-84): the value of
`checksum_type_str`, or `none` on the `default` branch. -/
def checksum_type_str : ChecksumType → Option String
  | .PKG_CHECKSUM_MD5 => some "md5"
  | .PKG_CHECKSUM_SHA1 => some "sha1"
  | .PKG_CHECKSUM_SHA256 => some "sha256"
  | .unknown _ => none

/-- Sequencing: the calls `pre` were made before the rest of the function
ran and produced `r`. -/
def after (pre : List Call) (r : XmlStruct × List Call) : XmlStruct × List Call :=
  (r.1, pre ++ r.2)

/-- Lines 140-161 of `xml_from_package_file`: compute the checksum, get the
header range, generate the XML, clean up and return.  Neither `checksum` nor
`hdr_r` is inspected before the call of `xml_from_header`. -/
def xml_from_package_file_gen (ext : Externals) (filename : String)
    (checksum_type : ChecksumType) (type_str : String)
    (location_href : String) (location_base : Option String)
    (changelog_limit : Int) (hdr : Header) (mtime size : Int) :
    XmlStruct × List Call :=
  -- Compute checksum
  let checksum := ext.compute_file_checksum filename checksum_type
  -- Get header range
  let hdr_r := ext.get_header_byte_range filename
  -- Gen XML
  let args : XmlFromHeaderArgs :=
    { hdr := hdr, mtime := mtime, size := size, checksum := checksum,
      checksum_type := type_str, location_href := location_href,
      location_base := location_base, changelog_limit := changelog_limit,
      hdr_start := hdr_r.start, hdr_end := hdr_r.end_ }
  let result := ext.xml_from_header args
  -- Cleanup
  (result,
   [Call.compute_file_checksum filename checksum_type,
    Call.get_header_byte_range filename,
    Call.xml_from_header args,
    Call.free checksum, Call.headerFree hdr])

/-- Lines 116-161 of `xml_from_package_file`: close the handle, get the file
stat (from `stat_buf`, or from `stat` when `stat_buf` is `NULL`), then go on
with `xml_from_package_file_gen`. -/
def xml_from_package_file_stat (ext : Externals) (filename : String)
    (checksum_type : ChecksumType) (type_str : String)
    (location_href : String) (location_base : Option String)
    (changelog_limit : Int) (stat_buf : Option stat_t) (fd : FD_t) (hdr : Header) :
    XmlStruct × List Call :=
  let result : XmlStruct := { primary := none, filelists := none, other := none }
  -- Cleanup
  after [Call.Fclose fd] <|
  -- Get file stat
  match stat_buf with
  | none =>
    after [Call.stat filename] <|
    if (ext.stat filename).1 = -1 then
      (result, [Call.g_critical "xml_from_package_file: stat() error"])
    else
      xml_from_package_file_gen ext filename checksum_type type_str location_href
        location_base changelog_limit hdr
        (ext.stat filename).2.st_mtime (ext.stat filename).2.st_size
  | some sb =>
    xml_from_package_file_gen ext filename checksum_type type_str location_href
      location_base changelog_limit hdr sb.st_mtime sb.st_size

/-- The function `xml_from_package_file` of `parsepkg.c`.  `ts` is the value of
the global `ts`; `stat_buf = none` is a `NULL` pointer.  Returns the result
struct and the external calls made, in order. -/
def xml_from_package_file (ext : Externals) (ts : Option rpmts)
    (filename : String) (checksum_type : ChecksumType)
    (location_href : String) (location_base : Option String)
    (changelog_limit : Int) (stat_buf : Option stat_t) :
    XmlStruct × List Call :=
  let result : XmlStruct := { primary := none, filelists := none, other := none }
  -- Set checksum type
  match checksum_type_str checksum_type with
  | none => (result, [Call.g_critical "Unknown checksum type"])
  | some type_str =>
    -- Open rpm file
    after [Call.Fopen filename "r.ufdio" (ext.Fopen filename "r.ufdio")] <|
    match ext.Fopen filename "r.ufdio" with
    | none => (result, [Call.g_critical "xml_from_package_file: Fopen failed"])
    | some fd =>
      -- Read package
      after [Call.rpmReadPackageFile ts fd] <|
      let rc := (ext.rpmReadPackageFile ts fd).1
      let hdr := (ext.rpmReadPackageFile ts fd).2
      if rc ≠ RPMRC_OK then
        if rc = RPMRC_NOKEY then
          after [Call.g_debug "xml_from_package_file: Public key is unavailable."] <|
          xml_from_package_file_stat ext filename checksum_type type_str location_href
            location_base changelog_limit stat_buf fd hdr
        else if rc = RPMRC_NOTTRUSTED then
          after [Call.g_debug "xml_from_package_file: Signature is OK, but key is not trusted."] <|
          xml_from_package_file_stat ext filename checksum_type type_str location_href
            location_base changelog_limit stat_buf fd hdr
        else
          (result, [Call.g_critical "xml_from_package_file: rpmReadPackageFile() error"])
      else
        xml_from_package_file_stat ext filename checksum_type type_str location_href
          location_base changelog_limit stat_buf fd hdr

/-! ## `init_package_parser` -/

/-- The globals of `parsepkg.c` (lines 21-22): `short initialized` and
`rpmts ts` (`none` is `NULL`). -/
structure ParserGlobals where
  initialized : Int
  ts : Option rpmts
  deriving DecidableEq, Repr

/-- The globals as the C initialisers leave them: `initialized = 0`,
`ts = NULL`. -/
def ParserGlobals.initial : ParserGlobals := { initialized := 0, ts := none }

/-- The verification-flag constants of the rpm library used by
`init_package_parser`; their values belong to rpm's headers and are taken as
parameters. -/
structure VSFlagConsts where
  _RPMVSF_NODIGESTS : Nat
  _RPMVSF_NOSIGNATURES : Nat
  RPMVSF_NOHDRCHK : Nat
  deriving DecidableEq, Repr

/-- The function `init_package_parser` of `parsepkg.c` (the suffix `_fn` only
sets the Lean name apart from the C one).  `created` is what
`rpmtsCreate()` returns (`none` is `NULL`).  Returns the globals after the call
and the external calls made, in order, each paired with the value the globals
`initialized` and `ts` have at the moment the call is made. -/
def init_package_parser_fn (consts : VSFlagConsts) (created : Option rpmts)
    (g : ParserGlobals) : ParserGlobals × List (ParserGlobals × Call) :=
  -- initialized = 1;
  let g1 : ParserGlobals := { g with initialized := 1 }
  -- rpmReadConfigFiles(NULL, NULL); ts = rpmtsCreate();
  let t1 : List (ParserGlobals × Call) :=
    [(g1, Call.rpmReadConfigFiles), (g1, Call.rpmtsCreate)]
  let g2 : ParserGlobals := { g1 with ts := created }
  let t2 : List (ParserGlobals × Call) :=
    t1 ++ (if g2.ts = none then
             [(g2, Call.g_critical "init_package_parser: rpmtsCreate() failed")]
           else [])
  let vsflags : Nat := 0
  let vsflags := vsflags ||| consts._RPMVSF_NODIGESTS
  let vsflags := vsflags ||| consts._RPMVSF_NOSIGNATURES
  let vsflags := vsflags ||| consts.RPMVSF_NOHDRCHK
  (g2, t2 ++ [(g2, Call.rpmtsSetVSFlags g2.ts vsflags)])

/-! ## The mapping interface of `MetadataLocation` -/

/-- The nine fields of `struct cr_MetadataLocation` read by `getitem`; each is
a nullable string (`none` is `NULL`). -/
structure cr_MetadataLocation where
  pri_xml_href : Option String
  fil_xml_href : Option String
  oth_xml_href : Option String
  pri_sqlite_href : Option String
  fil_sqlite_href : Option String
  oth_sqlite_href : Option String
  groupfile_href : Option String
  cgroupfile_href : Option String
  updateinfo_href : Option String
  deriving DecidableEq, Repr

/-- The Python object `_MetadataLocationObject`: its `ml` pointer (`none` is
`NULL`, the state `metadatalocation_new` leaves it in). -/
structure _MetadataLocationObject where
  ml : Option cr_MetadataLocation
  deriving DecidableEq, Repr

/-- A Python object used as subscript: a `str` with its bytes (which may
include NUL bytes), or an object that fails `PyString_Check`. -/
inductive PyObject where
  | PyString (s : String)
  | other
  deriving DecidableEq, Repr

/-- What a CPython function returns: `NULL` with an exception set, `None`, or
a `str`. -/
inductive PyReturn where
  | raised (exc : String) (msg : String)
  | Py_None
  | PyString (s : String)
  deriving DecidableEq, Repr

/-- The C string behind `PyString_AsString`: a pointer to the bytes of the
`str`, which every C string function reads up to the first NUL byte. -/
def PyString_AsString (s : String) : String :=
  String.mk (s.data.takeWhile (fun c => c ≠ Char.ofNat 0))

/-- The libc `strcmp` on two C strings: 0 exactly when they are equal. -/
def strcmp (a b : String) : Int :=
  if a = b then 0 else if a < b then -1 else 1

/-- The function `check_MetadataLocationStatus`: -1 (with CrErr_Exception set)
when `self->ml` is `NULL`, else 0. -/
def check_MetadataLocationStatus (self : _MetadataLocationObject) : Int :=
  if self.ml = none then -1 else 0

/-- The function `length` (`mp_length`): 9 when `self->ml` is set, else 0. -/
def length (self : _MetadataLocationObject) : Int :=
  if self.ml ≠ none then 9 else 0

/-- Lines 167-170 of `getitem`: `PyString_FromString(value)` for a non-`NULL`
value, `None` otherwise. -/
def py_of_value : Option String → PyReturn
  | some v => .PyString v
  | none => .Py_None

/-- The function `getitem` (`mp_subscript`). -/
def getitem (self : _MetadataLocationObject) (pykey : PyObject) : PyReturn :=
  if check_MetadataLocationStatus self ≠ 0 then
    .raised "CrErr_Exception" "Improper createrepo_c MetadataLocation object."
  else
    match self.ml, pykey with
    | none, _ => .raised "CrErr_Exception" "Improper createrepo_c MetadataLocation object."
    | some _, .other => .raised "TypeError" "String expected!"
    | some ml, .PyString s =>
      let key := PyString_AsString s
      let value : Option String :=
        if strcmp key "primary" = 0 then ml.pri_xml_href
        else if strcmp key "filelists" = 0 then ml.fil_xml_href
        else if strcmp key "other" = 0 then ml.oth_xml_href
        else if strcmp key "primary_db" = 0 then ml.pri_sqlite_href
        else if strcmp key "filelists_db" = 0 then ml.fil_sqlite_href
        else if strcmp key "other_db" = 0 then ml.oth_sqlite_href
        else if strcmp key "group" = 0 then ml.groupfile_href
        else if strcmp key "group_gz" = 0 then ml.cgroupfile_href
        else if strcmp key "updateinfo" = 0 then ml.updateinfo_href
        else none
      py_of_value value

/-! ## Observations on results and traces -/

/-- The all-`NULL` result. -/
def XmlStruct.empty : XmlStruct := { primary := none, filelists := none, other := none }

/-- All three fragments are present. -/
def XmlStruct.populated (x : XmlStruct) : Bool :=
  x.primary.isSome && x.filelists.isSome && x.other.isSome

/-- The stages of the extraction pipeline that show up as external calls. -/
inductive Stage where
  | open_ | read | close | stat | digest | range | assemble
  deriving DecidableEq, Repr

/-- The pipeline stage a call belongs to; logging and memory release belong to
none. -/
def Call.stage : Call → Option Stage
  | .Fopen _ _ _ => some .open_
  | .rpmReadPackageFile _ _ => some .read
  | .Fclose _ => some .close
  | .stat _ => some .stat
  | .compute_file_checksum _ _ => some .digest
  | .get_header_byte_range _ => some .range
  | .xml_from_header _ => some .assemble
  | _ => none

/-- The pipeline stages of a trace, in order. -/
def stages (t : List Call) : List Stage := t.filterMap Call.stage

/-- A call that touches the package file: `Fopen`, `rpmReadPackageFile`,
`stat`, `compute_file_checksum` or `get_header_byte_range`. -/
def Call.touches_file : Call → Bool
  | .Fopen _ _ _ => true
  | .rpmReadPackageFile _ _ => true
  | .stat _ => true
  | .compute_file_checksum _ _ => true
  | .get_header_byte_range _ => true
  | _ => false

/-- The argument records of the `xml_from_header` calls of a trace. -/
def xml_from_header_calls (t : List Call) : List XmlFromHeaderArgs :=
  t.filterMap fun c => match c with
    | .xml_from_header args => some args
    | _ => none

/-- The checksum types handed to `compute_file_checksum` in a trace. -/
def digest_types (t : List Call) : List ChecksumType :=
  t.filterMap fun c => match c with
    | .compute_file_checksum _ ct => some ct
    | _ => none

/-- The effect of one call on the set of open rpm file handles. -/
def handle_step (opened : List FD_t) : Call → List FD_t
  | .Fopen _ _ (some fd) => fd :: opened
  | .Fclose fd => opened.erase fd
  | _ => opened

/-- The handles left open by a trace that starts with none open. -/
def open_handles (t : List Call) : List FD_t := t.foldl handle_step []

/-! ## Stage-by-stage description of a run -/

/-- The diagnostic calls of the read stage for a return code that does not
abort: nothing for RPMRC_OK, one `g_debug` for RPMRC_NOKEY and for
RPMRC_NOTTRUSTED. -/
def read_log (rc : Int) : List Call :=
  if rc = RPMRC_OK then []
  else if rc = RPMRC_NOKEY then
    [Call.g_debug "xml_from_package_file: Public key is unavailable."]
  else [Call.g_debug "xml_from_package_file: Signature is OK, but key is not trusted."]

/-- The stat stage of lines 126-137 on its own: the buffer the mtime and size
are read from, or `none` when `stat_buf` is `NULL` and `stat` returns -1. -/
def resolved_stat (ext : Externals) (filename : String) (stat_buf : Option stat_t) :
    Option stat_t :=
  match stat_buf with
  | some sb => some sb
  | none => if (ext.stat filename).1 = -1 then none else some (ext.stat filename).2

/-- The calls of the stat stage: one `stat` when `stat_buf` is `NULL`, none
otherwise. -/
def stat_log (filename : String) (stat_buf : Option stat_t) : List Call :=
  match stat_buf with
  | some _ => []
  | none => [Call.stat filename]

/-- The record handed to `xml_from_header` at line 152, as a function of the
values in scope there. -/
def assembler_input (ext : Externals) (filename : String)
    (checksum_type : ChecksumType) (type_str : String)
    (location_href : String) (location_base : Option String)
    (changelog_limit : Int) (hdr : Header) (sb : stat_t) : XmlFromHeaderArgs :=
  { hdr := hdr, mtime := sb.st_mtime, size := sb.st_size,
    checksum := ext.compute_file_checksum filename checksum_type,
    checksum_type := type_str, location_href := location_href,
    location_base := location_base, changelog_limit := changelog_limit,
    hdr_start := (ext.get_header_byte_range filename).start,
    hdr_end := (ext.get_header_byte_range filename).end_ }

/-! ## The key table of `getitem` -/

/-- The nine-entry table of the claim: key and selected field. -/
def getitem_table : List (String × (cr_MetadataLocation → Option String)) :=
  [("primary", cr_MetadataLocation.pri_xml_href),
   ("filelists", cr_MetadataLocation.fil_xml_href),
   ("other", cr_MetadataLocation.oth_xml_href),
   ("primary_db", cr_MetadataLocation.pri_sqlite_href),
   ("filelists_db", cr_MetadataLocation.fil_sqlite_href),
   ("other_db", cr_MetadataLocation.oth_sqlite_href),
   ("group", cr_MetadataLocation.groupfile_href),
   ("group_gz", cr_MetadataLocation.cgroupfile_href),
   ("updateinfo", cr_MetadataLocation.updateinfo_href)]

/-! ## Sample worlds -/

/-- A sample world: `pkg.rpm` opens as handle 3 and nothing else opens; the
header read returns `rc`; `stat` succeeds on `pkg.rpm` with mtime 1000 and
size 20480; the digest is `checksum` and the header range is `hdr_r`;
`xml_from_header` gives a primary and an other fragment and echoes the digest
as filelists fragment, so its result is fully populated whenever the digest is
present. -/
def sampleExt (rc : Int) (checksum : Option String) (hdr_r : HeaderRangeStruct) : Externals where
  Fopen := fun filename _ => if filename = "pkg.rpm" then some 3 else none
  rpmReadPackageFile := fun _ _ => (rc, 7)
  stat := fun filename =>
    if filename = "pkg.rpm" then (0, { st_mtime := 1000, st_size := 20480 })
    else (-1, { st_mtime := 0, st_size := 0 })
  compute_file_checksum := fun _ _ => checksum
  get_header_byte_range := fun _ => hdr_r
  xml_from_header := fun args =>
    { primary := some ("<package>" ++ args.checksum_type ++ "</package>"),
      filelists := args.checksum,
      other := some "<other/>" }

/-- The flag constants with the values of rpm 4.x: RPMVSF_NOHDRCHK is bit 0,
the digest flags are bits 8, 9, 16, 17 and the signature flags bits 10, 11,
18, 19. -/
def rpm4Consts : VSFlagConsts :=
  { _RPMVSF_NODIGESTS := 197376, _RPMVSF_NOSIGNATURES := 789504, RPMVSF_NOHDRCHK := 1 }

/-- The sample world of `sampleExt` with a file system on which every `stat`
returns -1. -/
def sampleExtNoStat (rc : Int) (checksum : Option String) (hdr_r : HeaderRangeStruct) :
    Externals :=
  { sampleExt rc checksum hdr_r with
    stat := fun _ => (-1, { st_mtime := 0, st_size := 0 }) }

/-- A sample located repository: the three XML files are present, the rest is
absent. -/
def sampleLocation : cr_MetadataLocation :=
  { pri_xml_href := some "repodata/primary.xml.gz",
    fil_xml_href := some "repodata/filelists.xml.gz",
    oth_xml_href := some "repodata/other.xml.gz",
    pri_sqlite_href := none, fil_sqlite_href := none, oth_sqlite_href := none,
    groupfile_href := none, cgroupfile_href := none, updateinfo_href := none }

/-! ## Shared lemmas on `xml_from_package_file` -/

theorem checksum_type_str_eq_none {ct : ChecksumType}
    (h1 : ct ≠ .PKG_CHECKSUM_MD5) (h2 : ct ≠ .PKG_CHECKSUM_SHA1)
    (h3 : ct ≠ .PKG_CHECKSUM_SHA256) : checksum_type_str ct = none := by
  cases ct <;> simp_all [checksum_type_str]

theorem stages_read_log (rc : Int) : stages (read_log rc) = [] := by
  unfold read_log
  split_ifs <;> rfl

theorem stages_append (a b : List Call) : stages (a ++ b) = stages a ++ stages b := by
  simp [stages]

/-- With a supported type and an open handle, a return code among RPMRC_OK,
RPMRC_NOKEY, RPMRC_NOTTRUSTED leads to lines 116-161. -/
theorem xml_from_package_file_accepted (ext : Externals) (ts : Option rpmts)
    (filename : String) (checksum_type : ChecksumType) (type_str : String)
    (location_href : String) (location_base : Option String)
    (changelog_limit : Int) (stat_buf : Option stat_t) (fd : FD_t)
    (hct : checksum_type_str checksum_type = some type_str)
    (hopen : ext.Fopen filename "r.ufdio" = some fd)
    (hacc : (ext.rpmReadPackageFile ts fd).1 = RPMRC_OK ∨
      (ext.rpmReadPackageFile ts fd).1 = RPMRC_NOKEY ∨
      (ext.rpmReadPackageFile ts fd).1 = RPMRC_NOTTRUSTED) :
    xml_from_package_file ext ts filename checksum_type location_href location_base
        changelog_limit stat_buf
      = after ([Call.Fopen filename "r.ufdio" (some fd), Call.rpmReadPackageFile ts fd]
                ++ read_log (ext.rpmReadPackageFile ts fd).1)
          (xml_from_package_file_stat ext filename checksum_type type_str location_href
            location_base changelog_limit stat_buf fd (ext.rpmReadPackageFile ts fd).2) := by
  unfold xml_from_package_file
  simp only [hct, hopen]
  rcases hacc with h | h | h
  · simp [h, read_log, after]
  · have : RPMRC_NOKEY ≠ RPMRC_OK := by decide
    simp [h, read_log, after, this]
  · have h1 : RPMRC_NOTTRUSTED ≠ RPMRC_OK := by decide
    have h2 : RPMRC_NOTTRUSTED ≠ RPMRC_NOKEY := by decide
    simp [h, read_log, after, h1, h2]

/-- With a supported type and an open handle, every other return code makes
the function return at line 111. -/
theorem xml_from_package_file_rejected (ext : Externals) (ts : Option rpmts)
    (filename : String) (checksum_type : ChecksumType) (type_str : String)
    (location_href : String) (location_base : Option String)
    (changelog_limit : Int) (stat_buf : Option stat_t) (fd : FD_t)
    (hct : checksum_type_str checksum_type = some type_str)
    (hopen : ext.Fopen filename "r.ufdio" = some fd)
    (hrej : ¬ ((ext.rpmReadPackageFile ts fd).1 = RPMRC_OK ∨
      (ext.rpmReadPackageFile ts fd).1 = RPMRC_NOKEY ∨
      (ext.rpmReadPackageFile ts fd).1 = RPMRC_NOTTRUSTED)) :
    xml_from_package_file ext ts filename checksum_type location_href location_base
        changelog_limit stat_buf
      = (XmlStruct.empty,
         [Call.Fopen filename "r.ufdio" (some fd), Call.rpmReadPackageFile ts fd,
          Call.g_critical "xml_from_package_file: rpmReadPackageFile() error"]) := by
  unfold xml_from_package_file
  simp only [hct, hopen]
  have h1 : (ext.rpmReadPackageFile ts fd).1 ≠ RPMRC_OK := fun h => hrej (Or.inl h)
  have h2 : (ext.rpmReadPackageFile ts fd).1 ≠ RPMRC_NOKEY := fun h => hrej (Or.inr (Or.inl h))
  have h3 : (ext.rpmReadPackageFile ts fd).1 ≠ RPMRC_NOTTRUSTED :=
    fun h => hrej (Or.inr (Or.inr h))
  simp [h1, h2, h3, after, XmlStruct.empty]

/-- A failed `Fopen` makes the function return at line 93. -/
theorem xml_from_package_file_open_failed (ext : Externals) (ts : Option rpmts)
    (filename : String) (checksum_type : ChecksumType) (type_str : String)
    (location_href : String) (location_base : Option String)
    (changelog_limit : Int) (stat_buf : Option stat_t)
    (hct : checksum_type_str checksum_type = some type_str)
    (hopen : ext.Fopen filename "r.ufdio" = none) :
    xml_from_package_file ext ts filename checksum_type location_href location_base
        changelog_limit stat_buf
      = (XmlStruct.empty,
         [Call.Fopen filename "r.ufdio" none,
          Call.g_critical "xml_from_package_file: Fopen failed"]) := by
  unfold xml_from_package_file
  simp [hct, hopen, after, XmlStruct.empty]

/-- Lines 116-161 when a `stat_buf` is supplied. -/
theorem xml_from_package_file_stat_supplied (ext : Externals) (filename : String)
    (checksum_type : ChecksumType) (type_str : String)
    (location_href : String) (location_base : Option String)
    (changelog_limit : Int) (sb : stat_t) (fd : FD_t) (hdr : Header) :
    xml_from_package_file_stat ext filename checksum_type type_str location_href
        location_base changelog_limit (some sb) fd hdr
      = after [Call.Fclose fd]
          (xml_from_package_file_gen ext filename checksum_type type_str location_href
            location_base changelog_limit hdr sb.st_mtime sb.st_size) := rfl

/-- Lines 116-161 when `stat_buf` is `NULL` and `stat` does not return -1. -/
theorem xml_from_package_file_stat_queried (ext : Externals) (filename : String)
    (checksum_type : ChecksumType) (type_str : String)
    (location_href : String) (location_base : Option String)
    (changelog_limit : Int) (fd : FD_t) (hdr : Header)
    (hstat : (ext.stat filename).1 ≠ -1) :
    xml_from_package_file_stat ext filename checksum_type type_str location_href
        location_base changelog_limit none fd hdr
      = after [Call.Fclose fd, Call.stat filename]
          (xml_from_package_file_gen ext filename checksum_type type_str location_href
            location_base changelog_limit hdr
            (ext.stat filename).2.st_mtime (ext.stat filename).2.st_size) := by
  simp [xml_from_package_file_stat, hstat, after]

/-- Lines 116-161 when `stat_buf` is `NULL` and `stat` returns -1. -/
theorem xml_from_package_file_stat_failed (ext : Externals) (filename : String)
    (checksum_type : ChecksumType) (type_str : String)
    (location_href : String) (location_base : Option String)
    (changelog_limit : Int) (fd : FD_t) (hdr : Header)
    (hstat : (ext.stat filename).1 = -1) :
    xml_from_package_file_stat ext filename checksum_type type_str location_href
        location_base changelog_limit none fd hdr
      = (XmlStruct.empty,
         [Call.Fclose fd, Call.stat filename,
          Call.g_critical "xml_from_package_file: stat() error"]) := by
  simp [xml_from_package_file_stat, hstat, after, XmlStruct.empty]

/-- The whole run when no stage fails: supported type, open handle, return
code not rejected, stat resolved.  The digest and the range play no part. -/
theorem xml_from_package_file_assembled (ext : Externals) (ts : Option rpmts)
    (filename : String) (checksum_type : ChecksumType) (type_str : String)
    (location_href : String) (location_base : Option String)
    (changelog_limit : Int) (stat_buf : Option stat_t) (fd : FD_t) (sb : stat_t)
    (hct : checksum_type_str checksum_type = some type_str)
    (hopen : ext.Fopen filename "r.ufdio" = some fd)
    (hacc : (ext.rpmReadPackageFile ts fd).1 = RPMRC_OK ∨
      (ext.rpmReadPackageFile ts fd).1 = RPMRC_NOKEY ∨
      (ext.rpmReadPackageFile ts fd).1 = RPMRC_NOTTRUSTED)
    (hstat : resolved_stat ext filename stat_buf = some sb) :
    xml_from_package_file ext ts filename checksum_type location_href location_base
        changelog_limit stat_buf
      = after ([Call.Fopen filename "r.ufdio" (some fd), Call.rpmReadPackageFile ts fd]
                ++ read_log (ext.rpmReadPackageFile ts fd).1
                ++ [Call.Fclose fd] ++ stat_log filename stat_buf)
          (xml_from_package_file_gen ext filename checksum_type type_str location_href
            location_base changelog_limit (ext.rpmReadPackageFile ts fd).2
            sb.st_mtime sb.st_size) := by
  rw [xml_from_package_file_accepted ext ts filename checksum_type type_str location_href
    location_base changelog_limit stat_buf fd hct hopen hacc]
  cases stat_buf with
  | some sb0 =>
    simp only [resolved_stat, Option.some.injEq] at hstat
    subst hstat
    rw [xml_from_package_file_stat_supplied]
    simp [after, stat_log]
  | none =>
    simp only [resolved_stat] at hstat
    split_ifs at hstat with h
    simp only [Option.some.injEq] at hstat
    subst hstat
    rw [xml_from_package_file_stat_queried _ _ _ _ _ _ _ _ _ h]
    simp [after, stat_log]

/-- Every run either stops early with the all-`NULL` result, having called
neither `compute_file_checksum` nor `xml_from_header`, or passes the checksum
type, open, read and stat stages and is the run of
`xml_from_package_file_assembled`. -/
theorem xml_from_package_file_cases (ext : Externals) (ts : Option rpmts)
    (filename : String) (checksum_type : ChecksumType)
    (location_href : String) (location_base : Option String)
    (changelog_limit : Int) (stat_buf : Option stat_t) :
    ((xml_from_package_file ext ts filename checksum_type location_href location_base
        changelog_limit stat_buf).1 = XmlStruct.empty ∧
      xml_from_header_calls (xml_from_package_file ext ts filename checksum_type
        location_href location_base changelog_limit stat_buf).2 = [] ∧
      digest_types (xml_from_package_file ext ts filename checksum_type
        location_href location_base changelog_limit stat_buf).2 = []) ∨
    (∃ type_str fd sb,
      checksum_type_str checksum_type = some type_str ∧
      ext.Fopen filename "r.ufdio" = some fd ∧
      ((ext.rpmReadPackageFile ts fd).1 = RPMRC_OK ∨
        (ext.rpmReadPackageFile ts fd).1 = RPMRC_NOKEY ∨
        (ext.rpmReadPackageFile ts fd).1 = RPMRC_NOTTRUSTED) ∧
      resolved_stat ext filename stat_buf = some sb) := by
  cases hct : checksum_type_str checksum_type with
  | none =>
    left
    simp [xml_from_package_file, hct, XmlStruct.empty, xml_from_header_calls, digest_types]
  | some type_str =>
    cases hopen : ext.Fopen filename "r.ufdio" with
    | none =>
      left
      rw [xml_from_package_file_open_failed ext ts filename checksum_type type_str
        location_href location_base changelog_limit stat_buf hct hopen]
      simp [xml_from_header_calls, digest_types]
    | some fd =>
      by_cases hacc : (ext.rpmReadPackageFile ts fd).1 = RPMRC_OK ∨
          (ext.rpmReadPackageFile ts fd).1 = RPMRC_NOKEY ∨
          (ext.rpmReadPackageFile ts fd).1 = RPMRC_NOTTRUSTED
      · cases hstat : resolved_stat ext filename stat_buf with
        | some sb => exact Or.inr ⟨type_str, fd, sb, rfl, rfl, hacc, rfl⟩
        | none =>
          left
          cases stat_buf with
          | some sb0 => simp [resolved_stat] at hstat
          | none =>
            have h : (ext.stat filename).1 = -1 := by
              by_contra hne
              simp [resolved_stat, hne] at hstat
            rw [xml_from_package_file_accepted ext ts filename checksum_type type_str
              location_href location_base changelog_limit none fd hct hopen hacc,
              xml_from_package_file_stat_failed _ _ _ _ _ _ _ _ _ h]
            have hl : ∀ rc, xml_from_header_calls (read_log rc) = [] ∧
                digest_types (read_log rc) = [] := by
              intro rc
              unfold read_log
              split_ifs <;> exact ⟨rfl, rfl⟩
            simp [after, xml_from_header_calls, digest_types] at hl ⊢
            exact ⟨fun a ha => (hl _).1 a ha, fun a ha => (hl _).2 a ha⟩
      · left
        rw [xml_from_package_file_rejected ext ts filename checksum_type type_str
          location_href location_base changelog_limit stat_buf fd hct hopen hacc]
        simp [xml_from_header_calls, digest_types]

theorem xml_from_header_calls_read_log (rc : Int) :
    xml_from_header_calls (read_log rc) = [] := by
  unfold read_log
  split_ifs <;> rfl

theorem digest_types_read_log (rc : Int) : digest_types (read_log rc) = [] := by
  unfold read_log
  split_ifs <;> rfl

theorem xml_from_header_calls_stat_log (filename : String) (stat_buf : Option stat_t) :
    xml_from_header_calls (stat_log filename stat_buf) = [] := by
  cases stat_buf <;> rfl

theorem digest_types_stat_log (filename : String) (stat_buf : Option stat_t) :
    digest_types (stat_log filename stat_buf) = [] := by
  cases stat_buf <;> rfl

theorem xml_from_header_calls_append (a b : List Call) :
    xml_from_header_calls (a ++ b) = xml_from_header_calls a ++ xml_from_header_calls b := by
  simp [xml_from_header_calls]

theorem digest_types_append (a b : List Call) :
    digest_types (a ++ b) = digest_types a ++ digest_types b := by
  simp [digest_types]

/-- What a run that passes the checksum type, open, read and stat stages
returns and hands to its collaborators. -/
theorem xml_from_package_file_assembled_obs (ext : Externals) (ts : Option rpmts)
    (filename : String) (checksum_type : ChecksumType) (type_str : String)
    (location_href : String) (location_base : Option String)
    (changelog_limit : Int) (stat_buf : Option stat_t) (fd : FD_t) (sb : stat_t)
    (hct : checksum_type_str checksum_type = some type_str)
    (hopen : ext.Fopen filename "r.ufdio" = some fd)
    (hacc : (ext.rpmReadPackageFile ts fd).1 = RPMRC_OK ∨
      (ext.rpmReadPackageFile ts fd).1 = RPMRC_NOKEY ∨
      (ext.rpmReadPackageFile ts fd).1 = RPMRC_NOTTRUSTED)
    (hstat : resolved_stat ext filename stat_buf = some sb) :
    (xml_from_package_file ext ts filename checksum_type location_href location_base
        changelog_limit stat_buf).1
      = ext.xml_from_header (assembler_input ext filename checksum_type type_str
          location_href location_base changelog_limit (ext.rpmReadPackageFile ts fd).2 sb) ∧
    xml_from_header_calls (xml_from_package_file ext ts filename checksum_type
        location_href location_base changelog_limit stat_buf).2
      = [assembler_input ext filename checksum_type type_str
          location_href location_base changelog_limit (ext.rpmReadPackageFile ts fd).2 sb] ∧
    digest_types (xml_from_package_file ext ts filename checksum_type
        location_href location_base changelog_limit stat_buf).2 = [checksum_type] := by
  rw [xml_from_package_file_assembled ext ts filename checksum_type type_str location_href
    location_base changelog_limit stat_buf fd sb hct hopen hacc hstat]
  simp only [after, xml_from_header_calls_append, digest_types_append,
    xml_from_header_calls_read_log, digest_types_read_log, xml_from_header_calls_stat_log,
    digest_types_stat_log, xml_from_package_file_gen]
  exact ⟨rfl, rfl, rfl⟩

/-- A run that does not pass the checksum type, open, read and stat stages
returns the all-`NULL` result and calls neither `compute_file_checksum` nor
`xml_from_header`. -/
theorem xml_from_package_file_not_assembled (ext : Externals) (ts : Option rpmts)
    (filename : String) (checksum_type : ChecksumType)
    (location_href : String) (location_base : Option String)
    (changelog_limit : Int) (stat_buf : Option stat_t)
    (h : ¬ ∃ type_str fd sb,
      checksum_type_str checksum_type = some type_str ∧
      ext.Fopen filename "r.ufdio" = some fd ∧
      ((ext.rpmReadPackageFile ts fd).1 = RPMRC_OK ∨
        (ext.rpmReadPackageFile ts fd).1 = RPMRC_NOKEY ∨
        (ext.rpmReadPackageFile ts fd).1 = RPMRC_NOTTRUSTED) ∧
      resolved_stat ext filename stat_buf = some sb) :
    (xml_from_package_file ext ts filename checksum_type location_href location_base
        changelog_limit stat_buf).1 = XmlStruct.empty ∧
    xml_from_header_calls (xml_from_package_file ext ts filename checksum_type
        location_href location_base changelog_limit stat_buf).2 = [] ∧
    digest_types (xml_from_package_file ext ts filename checksum_type
        location_href location_base changelog_limit stat_buf).2 = [] := by
  rcases xml_from_package_file_cases ext ts filename checksum_type location_href
    location_base changelog_limit stat_buf with hl | hr
  · exact hl
  · exact absurd hr h

theorem stages_stat_log_some (filename : String) (sb : stat_t) :
    stages (stat_log filename (some sb)) = [] := rfl

theorem stages_stat_log_none (filename : String) :
    stages (stat_log filename none) = [Stage.stat] := rfl

/-- The sample collaborator `xml_from_header` returns a fully populated result
on every input record whose digest is present. -/
theorem sampleExt_populated_on_populated (rc : Int) (checksum : Option String)
    (hdr_r : HeaderRangeStruct) (args : XmlFromHeaderArgs) (h : args.checksum.isSome = true) :
    ((sampleExt rc checksum hdr_r).xml_from_header args).populated = true := by
  simp [sampleExt, XmlStruct.populated, h]

/-! ## Properties of `xml_from_package_file` -/

/-- C1: for a checksum type other than PKG_CHECKSUM_MD5, PKG_CHECKSUM_SHA1 and
PKG_CHECKSUM_SHA256, and whatever the other arguments and the collaborators,
`xml_from_package_file` returns the all-`NULL` result, its only external call
is the `g_critical` log, no pipeline stage runs and no call touches the file
(no `Fopen`, `rpmReadPackageFile`, `stat`, `compute_file_checksum`,
`get_header_byte_range`). -/
theorem unknown_checksum_type_short_circuits (ext : Externals) (ts : Option rpmts)
    (filename : String) (checksum_type : ChecksumType)
    (location_href : String) (location_base : Option String)
    (changelog_limit : Int) (stat_buf : Option stat_t)
    (h1 : checksum_type ≠ .PKG_CHECKSUM_MD5) (h2 : checksum_type ≠ .PKG_CHECKSUM_SHA1)
    (h3 : checksum_type ≠ .PKG_CHECKSUM_SHA256) :
    (xml_from_package_file ext ts filename checksum_type location_href location_base
        changelog_limit stat_buf).1
      = { primary := none, filelists := none, other := none } ∧
    (xml_from_package_file ext ts filename checksum_type location_href location_base
        changelog_limit stat_buf).2 = [Call.g_critical "Unknown checksum type"] ∧
    stages (xml_from_package_file ext ts filename checksum_type location_href location_base
        changelog_limit stat_buf).2 = [] ∧
    (xml_from_package_file ext ts filename checksum_type location_href location_base
        changelog_limit stat_buf).2.all (fun c => !c.touches_file) = true := by
  have h := checksum_type_str_eq_none h1 h2 h3
  simp [xml_from_package_file, h, stages, Call.stage, Call.touches_file]

/-- Witness of C1 at the out-of-range value 7. -/
theorem unknown_checksum_type_short_circuits_witness :
    (ChecksumType.unknown 7 ≠ .PKG_CHECKSUM_MD5 ∧
     ChecksumType.unknown 7 ≠ .PKG_CHECKSUM_SHA1 ∧
     ChecksumType.unknown 7 ≠ .PKG_CHECKSUM_SHA256) ∧
    (xml_from_package_file (sampleExt 0 (some "ab") ⟨0, 9⟩) none "pkg.rpm" (.unknown 7)
        "pkg.rpm" none 10 none).1
      = { primary := none, filelists := none, other := none } ∧
    (xml_from_package_file (sampleExt 0 (some "ab") ⟨0, 9⟩) none "pkg.rpm" (.unknown 7)
        "pkg.rpm" none 10 none).2 = [Call.g_critical "Unknown checksum type"] ∧
    stages (xml_from_package_file (sampleExt 0 (some "ab") ⟨0, 9⟩) none "pkg.rpm" (.unknown 7)
        "pkg.rpm" none 10 none).2 = [] ∧
    (xml_from_package_file (sampleExt 0 (some "ab") ⟨0, 9⟩) none "pkg.rpm" (.unknown 7)
        "pkg.rpm" none 10 none).2.all (fun c => !c.touches_file) = true :=
  ⟨⟨by decide, by decide, by decide⟩,
   unknown_checksum_type_short_circuits (sampleExt 0 (some "ab") ⟨0, 9⟩) none "pkg.rpm"
     (.unknown 7) "pkg.rpm" none 10 none (by decide) (by decide) (by decide)⟩

/-- C2: with a supported checksum type and a successful `Fopen`, the return
code of `rpmReadPackageFile` alone decides whether the read stage aborts.  For
RPMRC_OK, RPMRC_NOKEY and RPMRC_NOTTRUSTED the handle is closed and the stat
stage is reached; when that stage succeeds (a `stat_buf` is supplied, or `stat`
does not return -1) the digest, range and assembly stages run and the value
returned is the result of `xml_from_header`.  For every other return code the
function returns the all-`NULL` result right after the read, with no close,
stat, digest, range or assembly stage. -/
theorem read_return_code_gates_extraction (ext : Externals) (ts : Option rpmts)
    (filename : String) (checksum_type : ChecksumType) (type_str : String)
    (location_href : String) (location_base : Option String)
    (changelog_limit : Int) (stat_buf : Option stat_t) (fd : FD_t)
    (hct : checksum_type_str checksum_type = some type_str)
    (hopen : ext.Fopen filename "r.ufdio" = some fd) :
    let rc := (ext.rpmReadPackageFile ts fd).1
    let r := xml_from_package_file ext ts filename checksum_type location_href
      location_base changelog_limit stat_buf
    let args : Int → Int → XmlFromHeaderArgs := fun mtime size =>
      { hdr := (ext.rpmReadPackageFile ts fd).2, mtime := mtime, size := size,
        checksum := ext.compute_file_checksum filename checksum_type,
        checksum_type := type_str, location_href := location_href,
        location_base := location_base, changelog_limit := changelog_limit,
        hdr_start := (ext.get_header_byte_range filename).start,
        hdr_end := (ext.get_header_byte_range filename).end_ }
    ((rc = RPMRC_OK ∨ rc = RPMRC_NOKEY ∨ rc = RPMRC_NOTTRUSTED) →
      (∀ sb, stat_buf = some sb →
        r.1 = ext.xml_from_header (args sb.st_mtime sb.st_size) ∧
        stages r.2 = [.open_, .read, .close, .digest, .range, .assemble]) ∧
      (stat_buf = none → (ext.stat filename).1 ≠ -1 →
        r.1 = ext.xml_from_header
          (args (ext.stat filename).2.st_mtime (ext.stat filename).2.st_size) ∧
        stages r.2 = [.open_, .read, .close, .stat, .digest, .range, .assemble]) ∧
      (stat_buf = none → (ext.stat filename).1 = -1 →
        r.1 = XmlStruct.empty ∧ stages r.2 = [.open_, .read, .close, .stat])) ∧
    (¬ (rc = RPMRC_OK ∨ rc = RPMRC_NOKEY ∨ rc = RPMRC_NOTTRUSTED) →
      r.1 = XmlStruct.empty ∧ stages r.2 = [.open_, .read] ∧
      r.2 = [Call.Fopen filename "r.ufdio" (some fd), Call.rpmReadPackageFile ts fd,
             Call.g_critical "xml_from_package_file: rpmReadPackageFile() error"]) := by
  intro rc r args
  refine ⟨fun hacc => ?_, fun hrej => ?_⟩
  · have hrun := xml_from_package_file_accepted ext ts filename checksum_type type_str
      location_href location_base changelog_limit stat_buf fd hct hopen hacc
    refine ⟨?_, ?_, ?_⟩
    · rintro sb rfl
      rw [xml_from_package_file_stat_supplied] at hrun
      simp only [r, hrun, after, xml_from_package_file_gen, stages_append, stages_read_log,
        args, true_and]
      rfl
    · rintro rfl hstat
      rw [xml_from_package_file_stat_queried _ _ _ _ _ _ _ _ _ hstat] at hrun
      simp only [r, hrun, after, xml_from_package_file_gen, stages_append, stages_read_log,
        args, true_and]
      rfl
    · rintro rfl hstat
      rw [xml_from_package_file_stat_failed _ _ _ _ _ _ _ _ _ hstat] at hrun
      simp only [r, hrun, after, stages_append, stages_read_log, true_and]
      rfl
  · have hrun := xml_from_package_file_rejected ext ts filename checksum_type type_str
      location_href location_base changelog_limit stat_buf fd hct hopen hrej
    simp only [r, hrun, true_and, and_true]
    rfl

/-- Witness of C2: a SHA-256 extraction of `pkg.rpm` whose header read returns
RPMRC_NOKEY and whose `stat` succeeds yields the result of `xml_from_header`. -/
theorem read_return_code_gates_extraction_witness :
    (checksum_type_str .PKG_CHECKSUM_SHA256 = some "sha256" ∧
     (sampleExt 4 (some "ab") ⟨0, 9⟩).Fopen "pkg.rpm" "r.ufdio" = some 3 ∧
     ((sampleExt 4 (some "ab") ⟨0, 9⟩).rpmReadPackageFile none 3).1 = RPMRC_NOKEY ∧
     ((sampleExt 4 (some "ab") ⟨0, 9⟩).stat "pkg.rpm").1 ≠ -1) ∧
    (xml_from_package_file (sampleExt 4 (some "ab") ⟨0, 9⟩) none "pkg.rpm"
        .PKG_CHECKSUM_SHA256 "pkg.rpm" none 10 none).1
      = { primary := some "<package>sha256</package>", filelists := some "ab",
          other := some "<other/>" } ∧
    stages (xml_from_package_file (sampleExt 4 (some "ab") ⟨0, 9⟩) none "pkg.rpm"
        .PKG_CHECKSUM_SHA256 "pkg.rpm" none 10 none).2
      = [.open_, .read, .close, .stat, .digest, .range, .assemble] :=
  ⟨⟨rfl, rfl, rfl, by decide⟩,
   ((read_return_code_gates_extraction (sampleExt 4 (some "ab") ⟨0, 9⟩) none "pkg.rpm"
      .PKG_CHECKSUM_SHA256 "sha256" "pkg.rpm" none 10 none 3 rfl rfl).1
      (Or.inr (Or.inl rfl))).2.1 rfl (by decide)⟩

/-- C3, as stated, fails: in the sample world with a failing digest
(`compute_file_checksum` returns `NULL`), `xml_from_header` is still called,
with the `NULL` digest in its argument record, and the result returned is
neither all-`NULL` nor fully populated. -/
theorem failed_digest_still_assembles :
    (sampleExt 0 none ⟨0, 9⟩).compute_file_checksum "pkg.rpm" .PKG_CHECKSUM_SHA256 = none ∧
    xml_from_header_calls (xml_from_package_file (sampleExt 0 none ⟨0, 9⟩) none "pkg.rpm"
        .PKG_CHECKSUM_SHA256 "pkg.rpm" none 10 none).2
      = [{ hdr := 7, mtime := 1000, size := 20480, checksum := none,
           checksum_type := "sha256", location_href := "pkg.rpm", location_base := none,
           changelog_limit := 10, hdr_start := 0, hdr_end := 9 }] ∧
    (xml_from_package_file (sampleExt 0 none ⟨0, 9⟩) none "pkg.rpm"
        .PKG_CHECKSUM_SHA256 "pkg.rpm" none 10 none).1
      = { primary := some "<package>sha256</package>", filelists := none,
          other := some "<other/>" } ∧
    (xml_from_package_file (sampleExt 0 none ⟨0, 9⟩) none "pkg.rpm"
        .PKG_CHECKSUM_SHA256 "pkg.rpm" none 10 none).1 ≠ XmlStruct.empty ∧
    (xml_from_package_file (sampleExt 0 none ⟨0, 9⟩) none "pkg.rpm"
        .PKG_CHECKSUM_SHA256 "pkg.rpm" none 10 none).1.populated = false := by
  refine ⟨rfl, rfl, rfl, ?_, rfl⟩
  decide

/-- C3, amended: the digest and the header range are never inspected.  A call
that passes the checksum type, open, read and stat stages calls
`xml_from_header` exactly once, with the value of `compute_file_checksum`
(`NULL` included) and the value of `get_header_byte_range` in its argument
record, and returns its result as is; every other call returns the all-`NULL`
result and does not call `xml_from_header`; so every call returns either the
all-`NULL` result or the result of its single `xml_from_header` call, and a
result is fully populated or all-`NULL` whenever `xml_from_header` returns
only such results. -/
theorem result_is_empty_or_assembled (ext : Externals) (ts : Option rpmts)
    (filename : String) (checksum_type : ChecksumType)
    (location_href : String) (location_base : Option String)
    (changelog_limit : Int) (stat_buf : Option stat_t) :
    (∀ type_str fd sb,
      checksum_type_str checksum_type = some type_str →
      ext.Fopen filename "r.ufdio" = some fd →
      ((ext.rpmReadPackageFile ts fd).1 = RPMRC_OK ∨
        (ext.rpmReadPackageFile ts fd).1 = RPMRC_NOKEY ∨
        (ext.rpmReadPackageFile ts fd).1 = RPMRC_NOTTRUSTED) →
      resolved_stat ext filename stat_buf = some sb →
      xml_from_header_calls (xml_from_package_file ext ts filename checksum_type
          location_href location_base changelog_limit stat_buf).2
        = [{ hdr := (ext.rpmReadPackageFile ts fd).2, mtime := sb.st_mtime,
             size := sb.st_size,
             checksum := ext.compute_file_checksum filename checksum_type,
             checksum_type := type_str, location_href := location_href,
             location_base := location_base, changelog_limit := changelog_limit,
             hdr_start := (ext.get_header_byte_range filename).start,
             hdr_end := (ext.get_header_byte_range filename).end_ }] ∧
      (xml_from_package_file ext ts filename checksum_type location_href location_base
          changelog_limit stat_buf).1
        = ext.xml_from_header
            { hdr := (ext.rpmReadPackageFile ts fd).2, mtime := sb.st_mtime,
              size := sb.st_size,
              checksum := ext.compute_file_checksum filename checksum_type,
              checksum_type := type_str, location_href := location_href,
              location_base := location_base, changelog_limit := changelog_limit,
              hdr_start := (ext.get_header_byte_range filename).start,
              hdr_end := (ext.get_header_byte_range filename).end_ }) ∧
    ((¬ ∃ type_str fd sb,
        checksum_type_str checksum_type = some type_str ∧
        ext.Fopen filename "r.ufdio" = some fd ∧
        ((ext.rpmReadPackageFile ts fd).1 = RPMRC_OK ∨
          (ext.rpmReadPackageFile ts fd).1 = RPMRC_NOKEY ∨
          (ext.rpmReadPackageFile ts fd).1 = RPMRC_NOTTRUSTED) ∧
        resolved_stat ext filename stat_buf = some sb) →
      (xml_from_package_file ext ts filename checksum_type location_href location_base
          changelog_limit stat_buf).1 = XmlStruct.empty ∧
      xml_from_header_calls (xml_from_package_file ext ts filename checksum_type
          location_href location_base changelog_limit stat_buf).2 = [] ∧
      Stage.assemble ∉ stages (xml_from_package_file ext ts filename checksum_type
          location_href location_base changelog_limit stat_buf).2) ∧
    (((xml_from_package_file ext ts filename checksum_type location_href location_base
          changelog_limit stat_buf).1 = XmlStruct.empty ∧
        xml_from_header_calls (xml_from_package_file ext ts filename checksum_type
          location_href location_base changelog_limit stat_buf).2 = []) ∨
      (∃ args,
        xml_from_header_calls (xml_from_package_file ext ts filename checksum_type
          location_href location_base changelog_limit stat_buf).2 = [args] ∧
        (xml_from_package_file ext ts filename checksum_type location_href location_base
          changelog_limit stat_buf).1 = ext.xml_from_header args)) ∧
    ((∀ args, (ext.xml_from_header args).populated = true ∨
        ext.xml_from_header args = XmlStruct.empty) →
      (xml_from_package_file ext ts filename checksum_type location_href location_base
          changelog_limit stat_buf).1.populated = true ∨
      (xml_from_package_file ext ts filename checksum_type location_href location_base
          changelog_limit stat_buf).1 = XmlStruct.empty) := by
  have hcases := xml_from_package_file_cases ext ts filename checksum_type location_href
    location_base changelog_limit stat_buf
  have hdisj : ((xml_from_package_file ext ts filename checksum_type location_href
          location_base changelog_limit stat_buf).1 = XmlStruct.empty ∧
        xml_from_header_calls (xml_from_package_file ext ts filename checksum_type
          location_href location_base changelog_limit stat_buf).2 = []) ∨
      (∃ args,
        xml_from_header_calls (xml_from_package_file ext ts filename checksum_type
          location_href location_base changelog_limit stat_buf).2 = [args] ∧
        (xml_from_package_file ext ts filename checksum_type location_href location_base
          changelog_limit stat_buf).1 = ext.xml_from_header args) := by
    rcases hcases with ⟨h1, h2, _⟩ | ⟨type_str, fd, sb, hct, hopen, hacc, hstat⟩
    · exact Or.inl ⟨h1, h2⟩
    · have h := xml_from_package_file_assembled_obs ext ts filename checksum_type type_str
        location_href location_base changelog_limit stat_buf fd sb hct hopen hacc hstat
      exact Or.inr ⟨_, h.2.1, h.1⟩
  refine ⟨?_, ?_, hdisj, ?_⟩
  · intro type_str fd sb hct hopen hacc hstat
    have h := xml_from_package_file_assembled_obs ext ts filename checksum_type type_str
      location_href location_base changelog_limit stat_buf fd sb hct hopen hacc hstat
    exact ⟨h.2.1, h.1⟩
  · intro hnot
    have h := xml_from_package_file_not_assembled ext ts filename checksum_type
      location_href location_base changelog_limit stat_buf hnot
    refine ⟨h.1, h.2.1, ?_⟩
    intro hmem
    have hcalls := h.2.1
    simp only [stages, List.mem_filterMap] at hmem
    obtain ⟨c, hc, hstage⟩ := hmem
    cases c <;> simp [Call.stage] at hstage
    rename_i args
    have : args ∈ xml_from_header_calls (xml_from_package_file ext ts filename
        checksum_type location_href location_base changelog_limit stat_buf).2 := by
      simp only [xml_from_header_calls, List.mem_filterMap]
      exact ⟨_, hc, rfl⟩
    rw [hcalls] at this
    cases this
  · intro huni
    rcases hdisj with ⟨h1, _⟩ | ⟨args, _, h⟩
    · exact Or.inr h1
    · rw [h]
      exact huni args

/-- Witness of C3 amended.  With a failing digest in the sample world the
single `xml_from_header` call carries the `NULL` digest and its partly
populated result is returned; in the world where `stat` fails the result is
all-`NULL` and `xml_from_header` is not called. -/
theorem result_is_empty_or_assembled_witness :
    ((checksum_type_str .PKG_CHECKSUM_SHA256 = some "sha256" ∧
      (sampleExt 4 none ⟨0, 9⟩).Fopen "pkg.rpm" "r.ufdio" = some 3 ∧
      ((sampleExt 4 none ⟨0, 9⟩).rpmReadPackageFile none 3).1 = RPMRC_NOKEY ∧
      resolved_stat (sampleExt 4 none ⟨0, 9⟩) "pkg.rpm" (some ⟨5, 6⟩) = some ⟨5, 6⟩) ∧
     xml_from_header_calls (xml_from_package_file (sampleExt 4 none ⟨0, 9⟩) none "pkg.rpm"
         .PKG_CHECKSUM_SHA256 "pkg.rpm" none 10 (some ⟨5, 6⟩)).2
       = [{ hdr := 7, mtime := 5, size := 6, checksum := none,
            checksum_type := "sha256", location_href := "pkg.rpm", location_base := none,
            changelog_limit := 10, hdr_start := 0, hdr_end := 9 }] ∧
     (xml_from_package_file (sampleExt 4 none ⟨0, 9⟩) none "pkg.rpm"
         .PKG_CHECKSUM_SHA256 "pkg.rpm" none 10 (some ⟨5, 6⟩)).1
       = { primary := some "<package>sha256</package>", filelists := none,
           other := some "<other/>" }) ∧
    (resolved_stat (sampleExtNoStat 0 (some "ab") ⟨0, 9⟩) "pkg.rpm" none = none ∧
     (xml_from_package_file (sampleExtNoStat 0 (some "ab") ⟨0, 9⟩) none "pkg.rpm"
         .PKG_CHECKSUM_SHA256 "pkg.rpm" none 10 none).1 = XmlStruct.empty ∧
     xml_from_header_calls (xml_from_package_file (sampleExtNoStat 0 (some "ab") ⟨0, 9⟩)
         none "pkg.rpm" .PKG_CHECKSUM_SHA256 "pkg.rpm" none 10 none).2 = [] ∧
     Stage.assemble ∉ stages (xml_from_package_file (sampleExtNoStat 0 (some "ab") ⟨0, 9⟩)
         none "pkg.rpm" .PKG_CHECKSUM_SHA256 "pkg.rpm" none 10 none).2) :=
  ⟨⟨⟨rfl, rfl, rfl, rfl⟩,
    (result_is_empty_or_assembled (sampleExt 4 none ⟨0, 9⟩) none "pkg.rpm"
      .PKG_CHECKSUM_SHA256 "pkg.rpm" none 10 (some ⟨5, 6⟩)).1 "sha256" 3 ⟨5, 6⟩
      rfl rfl (Or.inr (Or.inl rfl)) rfl⟩,
   ⟨rfl,
    (result_is_empty_or_assembled (sampleExtNoStat 0 (some "ab") ⟨0, 9⟩) none "pkg.rpm"
      .PKG_CHECKSUM_SHA256 "pkg.rpm" none 10 none).2.1
      (fun h => h.elim fun _ h => h.elim fun _ h => h.elim fun _ h =>
        Option.noConfusion (h.2.2.2 : (none : Option stat_t) = some _))⟩⟩

/-- C4, as stated, fails: in the sample world `get_header_byte_range` returns
start 30000 and end 25000 for a file of size 20480, and exactly this range is
handed to `xml_from_header`, although start > end and end > size. -/
theorem bad_header_range_is_passed_on :
    (sampleExt 0 (some "ab") ⟨30000, 25000⟩).get_header_byte_range "pkg.rpm"
      = ⟨30000, 25000⟩ ∧
    xml_from_header_calls (xml_from_package_file (sampleExt 0 (some "ab") ⟨30000, 25000⟩)
        none "pkg.rpm" .PKG_CHECKSUM_SHA256 "pkg.rpm" none 10 none).2
      = [{ hdr := 7, mtime := 1000, size := 20480, checksum := some "ab",
           checksum_type := "sha256", location_href := "pkg.rpm", location_base := none,
           changelog_limit := 10, hdr_start := 30000, hdr_end := 25000 }] ∧
    ¬ ((30000 : Nat) ≤ 25000) ∧ ¬ (((25000 : Nat) : Int) ≤ 20480) := by
  refine ⟨rfl, rfl, ?_, ?_⟩ <;> decide

/-- C4, amended: the header range is handed over unchecked.  Every call that
passes the checksum type, open, read and stat stages calls `xml_from_header`
with exactly the pair returned by `get_header_byte_range` for the file name
and with the size resolved by the stat stage (from `stat_buf` when supplied,
from `stat` otherwise), whatever that pair is; `xml_from_header` is called
exactly on those calls, so whether it is reached does not depend on the range;
and every argument record it receives carries the returned pair and the
resolved size. -/
theorem header_range_passed_verbatim (ext : Externals) (ts : Option rpmts)
    (filename : String) (checksum_type : ChecksumType)
    (location_href : String) (location_base : Option String)
    (changelog_limit : Int) (stat_buf : Option stat_t) :
    (∀ type_str fd sb,
      checksum_type_str checksum_type = some type_str →
      ext.Fopen filename "r.ufdio" = some fd →
      ((ext.rpmReadPackageFile ts fd).1 = RPMRC_OK ∨
        (ext.rpmReadPackageFile ts fd).1 = RPMRC_NOKEY ∨
        (ext.rpmReadPackageFile ts fd).1 = RPMRC_NOTTRUSTED) →
      resolved_stat ext filename stat_buf = some sb →
      xml_from_header_calls (xml_from_package_file ext ts filename checksum_type
          location_href location_base changelog_limit stat_buf).2
        = [{ hdr := (ext.rpmReadPackageFile ts fd).2, mtime := sb.st_mtime,
             size := sb.st_size,
             checksum := ext.compute_file_checksum filename checksum_type,
             checksum_type := type_str, location_href := location_href,
             location_base := location_base, changelog_limit := changelog_limit,
             hdr_start := (ext.get_header_byte_range filename).start,
             hdr_end := (ext.get_header_byte_range filename).end_ }]) ∧
    (xml_from_header_calls (xml_from_package_file ext ts filename checksum_type
          location_href location_base changelog_limit stat_buf).2 ≠ [] ↔
      ∃ type_str fd sb,
        checksum_type_str checksum_type = some type_str ∧
        ext.Fopen filename "r.ufdio" = some fd ∧
        ((ext.rpmReadPackageFile ts fd).1 = RPMRC_OK ∨
          (ext.rpmReadPackageFile ts fd).1 = RPMRC_NOKEY ∨
          (ext.rpmReadPackageFile ts fd).1 = RPMRC_NOTTRUSTED) ∧
        resolved_stat ext filename stat_buf = some sb) ∧
    (∀ args ∈ xml_from_header_calls (xml_from_package_file ext ts filename checksum_type
          location_href location_base changelog_limit stat_buf).2,
      args.hdr_start = (ext.get_header_byte_range filename).start ∧
      args.hdr_end = (ext.get_header_byte_range filename).end_ ∧
      ∃ sb, resolved_stat ext filename stat_buf = some sb ∧ args.size = sb.st_size) := by
  refine ⟨?_, ⟨?_, ?_⟩, ?_⟩
  · intro type_str fd sb hct hopen hacc hstat
    exact (xml_from_package_file_assembled_obs ext ts filename checksum_type type_str
      location_href location_base changelog_limit stat_buf fd sb hct hopen hacc hstat).2.1
  · intro hne
    by_contra hnot
    exact hne (xml_from_package_file_not_assembled ext ts filename checksum_type
      location_href location_base changelog_limit stat_buf hnot).2.1
  · rintro ⟨type_str, fd, sb, hct, hopen, hacc, hstat⟩
    rw [(xml_from_package_file_assembled_obs ext ts filename checksum_type type_str
      location_href location_base changelog_limit stat_buf fd sb hct hopen hacc hstat).2.1]
    exact List.cons_ne_nil _ _
  · intro args hcall
    rcases xml_from_package_file_cases ext ts filename checksum_type location_href
      location_base changelog_limit stat_buf with
      ⟨_, h2, _⟩ | ⟨type_str, fd, sb, hct, hopen, hacc, hstat⟩
    · rw [h2] at hcall
      cases hcall
    · have h := (xml_from_package_file_assembled_obs ext ts filename checksum_type type_str
        location_href location_base changelog_limit stat_buf fd sb hct hopen hacc hstat).2.1
      rw [h] at hcall
      simp only [List.mem_singleton] at hcall
      subst hcall
      exact ⟨rfl, rfl, ⟨sb, hstat, rfl⟩⟩

/-- Witness of C4 amended: in the sample world the range (0, 30000), whose end
lies beyond the 20480 bytes of the file, is handed to `xml_from_header` as it
is. -/
theorem header_range_passed_verbatim_witness :
    (checksum_type_str .PKG_CHECKSUM_SHA256 = some "sha256" ∧
     (sampleExt 0 (some "ab") ⟨0, 30000⟩).Fopen "pkg.rpm" "r.ufdio" = some 3 ∧
     ((sampleExt 0 (some "ab") ⟨0, 30000⟩).rpmReadPackageFile none 3).1 = RPMRC_OK ∧
     resolved_stat (sampleExt 0 (some "ab") ⟨0, 30000⟩) "pkg.rpm" none
       = some { st_mtime := 1000, st_size := 20480 }) ∧
    (sampleExt 0 (some "ab") ⟨0, 30000⟩).get_header_byte_range "pkg.rpm" = ⟨0, 30000⟩ ∧
    ¬ (((30000 : Nat) : Int) ≤ 20480) ∧
    xml_from_header_calls (xml_from_package_file (sampleExt 0 (some "ab") ⟨0, 30000⟩)
        none "pkg.rpm" .PKG_CHECKSUM_SHA256 "pkg.rpm" none 10 none).2
      = [{ hdr := 7, mtime := 1000, size := 20480, checksum := some "ab",
           checksum_type := "sha256", location_href := "pkg.rpm", location_base := none,
           changelog_limit := 10, hdr_start := 0, hdr_end := 30000 }] :=
  ⟨⟨rfl, rfl, rfl, rfl⟩, rfl, by decide,
   (header_range_passed_verbatim (sampleExt 0 (some "ab") ⟨0, 30000⟩)
      none "pkg.rpm" .PKG_CHECKSUM_SHA256 "pkg.rpm" none 10 none).1 "sha256" 3
      { st_mtime := 1000, st_size := 20480 } rfl rfl (Or.inl rfl) rfl⟩

/-- C6: the checksum-type switch resolves PKG_CHECKSUM_MD5 to "md5",
PKG_CHECKSUM_SHA1 to "sha1" and PKG_CHECKSUM_SHA256 to "sha256"; it resolves
exactly these three values, to three pairwise distinct names (it is
injective); and on every call the algorithm name in the argument record of an
`xml_from_header` call is the name resolved from the `checksum_type` argument,
which is also the only type handed to `compute_file_checksum`. -/
theorem checksum_type_resolution (ext : Externals) (ts : Option rpmts)
    (filename : String) (checksum_type : ChecksumType)
    (location_href : String) (location_base : Option String)
    (changelog_limit : Int) (stat_buf : Option stat_t) :
    checksum_type_str .PKG_CHECKSUM_MD5 = some "md5" ∧
    checksum_type_str .PKG_CHECKSUM_SHA1 = some "sha1" ∧
    checksum_type_str .PKG_CHECKSUM_SHA256 = some "sha256" ∧
    (∀ ct, (checksum_type_str ct).isSome = true ↔
      (ct = .PKG_CHECKSUM_MD5 ∨ ct = .PKG_CHECKSUM_SHA1 ∨ ct = .PKG_CHECKSUM_SHA256)) ∧
    (∀ a b name, checksum_type_str a = some name → checksum_type_str b = some name → a = b) ∧
    (∀ args ∈ xml_from_header_calls (xml_from_package_file ext ts filename checksum_type
        location_href location_base changelog_limit stat_buf).2,
      checksum_type_str checksum_type = some args.checksum_type ∧
      digest_types (xml_from_package_file ext ts filename checksum_type
        location_href location_base changelog_limit stat_buf).2 = [checksum_type]) := by
  refine ⟨rfl, rfl, rfl, ?_, ?_, ?_⟩
  · intro ct
    cases ct <;> simp [checksum_type_str]
  · intro a b name ha hb
    have h : checksum_type_str a = checksum_type_str b := ha.trans hb.symm
    cases a <;> cases b <;> first
      | rfl
      | exact absurd h (by decide)
      | simp [checksum_type_str] at ha hb
  · intro args hargs
    rcases xml_from_package_file_cases ext ts filename checksum_type location_href
      location_base changelog_limit stat_buf with
      ⟨_, h2, _⟩ | ⟨type_str, fd, sb, hct, hopen, hacc, hstat⟩
    · rw [h2] at hargs
      cases hargs
    · have h := xml_from_package_file_assembled_obs ext ts filename checksum_type type_str
        location_href location_base changelog_limit stat_buf fd sb hct hopen hacc hstat
      rw [h.2.1] at hargs
      simp only [List.mem_singleton] at hargs
      subst hargs
      exact ⟨hct, h.2.2⟩

/-- Witness of C6: in the sample world a SHA-1 extraction hands the name
"sha1" to `xml_from_header` and the type PKG_CHECKSUM_SHA1 to
`compute_file_checksum`. -/
theorem checksum_type_resolution_witness :
    (({ hdr := 7, mtime := 1000, size := 20480, checksum := some "ab",
        checksum_type := "sha1", location_href := "pkg.rpm", location_base := none,
        changelog_limit := 10, hdr_start := 0, hdr_end := 9 } : XmlFromHeaderArgs)
      ∈ xml_from_header_calls (xml_from_package_file (sampleExt 0 (some "ab") ⟨0, 9⟩)
        none "pkg.rpm" .PKG_CHECKSUM_SHA1 "pkg.rpm" none 10 none).2) ∧
    checksum_type_str .PKG_CHECKSUM_SHA1 = some "sha1" ∧
    digest_types (xml_from_package_file (sampleExt 0 (some "ab") ⟨0, 9⟩)
        none "pkg.rpm" .PKG_CHECKSUM_SHA1 "pkg.rpm" none 10 none).2
      = [.PKG_CHECKSUM_SHA1] :=
  ⟨List.mem_singleton.mpr rfl,
   (checksum_type_resolution (sampleExt 0 (some "ab") ⟨0, 9⟩)
      none "pkg.rpm" .PKG_CHECKSUM_SHA1 "pkg.rpm" none 10 none).2.2.2.2.2
      { hdr := 7, mtime := 1000, size := 20480, checksum := some "ab",
        checksum_type := "sha1", location_href := "pkg.rpm", location_base := none,
        changelog_limit := 10, hdr_start := 0, hdr_end := 9 }
      (List.mem_singleton.mpr rfl)⟩

/-- C7: with a supported checksum type, a failing `Fopen` makes
`xml_from_package_file` return the all-`NULL` result with `Fopen` as its only
pipeline stage (no header read, stat, digest, range lookup or assembly); and
with `stat_buf = NULL` a `stat` that returns -1 makes it return the all-`NULL`
result with no digest, range or assembly stage. -/
theorem open_or_stat_failure_aborts (ext : Externals) (ts : Option rpmts)
    (filename : String) (checksum_type : ChecksumType) (type_str : String)
    (location_href : String) (location_base : Option String)
    (changelog_limit : Int) (stat_buf : Option stat_t)
    (hct : checksum_type_str checksum_type = some type_str) :
    (ext.Fopen filename "r.ufdio" = none →
      (xml_from_package_file ext ts filename checksum_type location_href location_base
        changelog_limit stat_buf).1 = XmlStruct.empty ∧
      stages (xml_from_package_file ext ts filename checksum_type location_href
        location_base changelog_limit stat_buf).2 = [.open_]) ∧
    ((ext.stat filename).1 = -1 →
      (xml_from_package_file ext ts filename checksum_type location_href location_base
        changelog_limit none).1 = XmlStruct.empty ∧
      Stage.digest ∉ stages (xml_from_package_file ext ts filename checksum_type
        location_href location_base changelog_limit none).2 ∧
      Stage.range ∉ stages (xml_from_package_file ext ts filename checksum_type
        location_href location_base changelog_limit none).2 ∧
      Stage.assemble ∉ stages (xml_from_package_file ext ts filename checksum_type
        location_href location_base changelog_limit none).2 ∧
      ∀ fd, ext.Fopen filename "r.ufdio" = some fd →
        ((ext.rpmReadPackageFile ts fd).1 = RPMRC_OK ∨
          (ext.rpmReadPackageFile ts fd).1 = RPMRC_NOKEY ∨
          (ext.rpmReadPackageFile ts fd).1 = RPMRC_NOTTRUSTED) →
        stages (xml_from_package_file ext ts filename checksum_type location_href
          location_base changelog_limit none).2 = [.open_, .read, .close, .stat]) := by
  refine ⟨fun hopen => ?_, fun hstat => ?_⟩
  · rw [xml_from_package_file_open_failed ext ts filename checksum_type type_str
      location_href location_base changelog_limit stat_buf hct hopen]
    exact ⟨rfl, rfl⟩
  · cases hopen : ext.Fopen filename "r.ufdio" with
    | none =>
      rw [xml_from_package_file_open_failed ext ts filename checksum_type type_str
        location_href location_base changelog_limit none hct hopen]
      have hst : stages [Call.Fopen filename "r.ufdio" none,
          Call.g_critical "xml_from_package_file: Fopen failed"] = [.open_] := rfl
      rw [hst]
      refine ⟨rfl, by decide, by decide, by decide, ?_⟩
      intro fd hfd
      cases hfd
    | some fd =>
      by_cases hacc : (ext.rpmReadPackageFile ts fd).1 = RPMRC_OK ∨
          (ext.rpmReadPackageFile ts fd).1 = RPMRC_NOKEY ∨
          (ext.rpmReadPackageFile ts fd).1 = RPMRC_NOTTRUSTED
      · have hrun : stages (xml_from_package_file ext ts filename checksum_type
            location_href location_base changelog_limit none).2
            = [.open_, .read, .close, .stat] := by
          rw [xml_from_package_file_accepted ext ts filename checksum_type type_str
            location_href location_base changelog_limit none fd hct hopen hacc,
            xml_from_package_file_stat_failed _ _ _ _ _ _ _ _ _ hstat]
          simp only [after, stages_append, stages_read_log]
          rfl
        refine ⟨?_, ?_, ?_, ?_, ?_⟩
        · rw [xml_from_package_file_accepted ext ts filename checksum_type type_str
            location_href location_base changelog_limit none fd hct hopen hacc,
            xml_from_package_file_stat_failed _ _ _ _ _ _ _ _ _ hstat]
          rfl
        · rw [hrun]; decide
        · rw [hrun]; decide
        · rw [hrun]; decide
        · intro fd2 _ _
          exact hrun
      · rw [xml_from_package_file_rejected ext ts filename checksum_type type_str
          location_href location_base changelog_limit none fd hct hopen hacc]
        have hst : stages [Call.Fopen filename "r.ufdio" (some fd),
            Call.rpmReadPackageFile ts fd,
            Call.g_critical "xml_from_package_file: rpmReadPackageFile() error"]
            = [.open_, .read] := rfl
        rw [hst]
        refine ⟨rfl, by decide, by decide, by decide, ?_⟩
        intro fd2 hfd2 hacc2
        cases hfd2
        exact absurd hacc2 hacc

/-- Witness of C7: in the sample world `other.rpm` cannot be opened. -/
theorem open_or_stat_failure_aborts_witness :
    (checksum_type_str .PKG_CHECKSUM_MD5 = some "md5" ∧
     (sampleExt 0 (some "ab") ⟨0, 9⟩).Fopen "other.rpm" "r.ufdio" = none) ∧
    (xml_from_package_file (sampleExt 0 (some "ab") ⟨0, 9⟩) none "other.rpm"
        .PKG_CHECKSUM_MD5 "other.rpm" none 10 none).1 = XmlStruct.empty ∧
    stages (xml_from_package_file (sampleExt 0 (some "ab") ⟨0, 9⟩) none "other.rpm"
        .PKG_CHECKSUM_MD5 "other.rpm" none 10 none).2 = [.open_] :=
  ⟨⟨rfl, rfl⟩,
   (open_or_stat_failure_aborts (sampleExt 0 (some "ab") ⟨0, 9⟩) none "other.rpm"
      .PKG_CHECKSUM_MD5 "md5" "other.rpm" none 10 none rfl).1 rfl⟩

/-- C8 fails on the code: in the sample world the header read of `pkg.rpm`
returns 2 (RPMRC_FAIL), the function returns at line 111, before the `Fclose`
of line 118: handle 3, which it opened, is still open when it returns and no
`Fclose` was ever called. -/
theorem rejected_read_leaves_handle_open :
    (sampleExt 2 (some "ab") ⟨0, 9⟩).Fopen "pkg.rpm" "r.ufdio" = some 3 ∧
    ((sampleExt 2 (some "ab") ⟨0, 9⟩).rpmReadPackageFile none 3).1 = 2 ∧
    (xml_from_package_file (sampleExt 2 (some "ab") ⟨0, 9⟩) none "pkg.rpm"
        .PKG_CHECKSUM_SHA256 "pkg.rpm" none 10 none).2
      = [Call.Fopen "pkg.rpm" "r.ufdio" (some 3), Call.rpmReadPackageFile none 3,
         Call.g_critical "xml_from_package_file: rpmReadPackageFile() error"] ∧
    open_handles (xml_from_package_file (sampleExt 2 (some "ab") ⟨0, 9⟩) none "pkg.rpm"
        .PKG_CHECKSUM_SHA256 "pkg.rpm" none 10 none).2 = [3] ∧
    Stage.close ∉ stages (xml_from_package_file (sampleExt 2 (some "ab") ⟨0, 9⟩) none
        "pkg.rpm" .PKG_CHECKSUM_SHA256 "pkg.rpm" none 10 none).2 := by
  refine ⟨rfl, rfl, rfl, rfl, ?_⟩
  decide

/-- The sibling paths do close the handle: with a supported type, an open
handle and a return code among RPMRC_OK, RPMRC_NOKEY, RPMRC_NOTTRUSTED, no
handle is open when `xml_from_package_file` returns. -/
theorem accepted_read_closes_handle (ext : Externals) (ts : Option rpmts)
    (filename : String) (checksum_type : ChecksumType) (type_str : String)
    (location_href : String) (location_base : Option String)
    (changelog_limit : Int) (stat_buf : Option stat_t) (fd : FD_t)
    (hct : checksum_type_str checksum_type = some type_str)
    (hopen : ext.Fopen filename "r.ufdio" = some fd)
    (hacc : (ext.rpmReadPackageFile ts fd).1 = RPMRC_OK ∨
      (ext.rpmReadPackageFile ts fd).1 = RPMRC_NOKEY ∨
      (ext.rpmReadPackageFile ts fd).1 = RPMRC_NOTTRUSTED) :
    open_handles (xml_from_package_file ext ts filename checksum_type location_href
      location_base changelog_limit stat_buf).2 = [] := by
  have hlog : ∀ rc (l : List FD_t), List.foldl handle_step l (read_log rc) = l := by
    intro rc l
    unfold read_log
    split_ifs <;> rfl
  rw [xml_from_package_file_accepted ext ts filename checksum_type type_str
    location_href location_base changelog_limit stat_buf fd hct hopen hacc]
  cases stat_buf with
  | some sb =>
    simp [open_handles, after, xml_from_package_file_stat, xml_from_package_file_gen,
      List.foldl_append, hlog, handle_step]
  | none =>
    by_cases hstat : (ext.stat filename).1 = -1
    · simp [open_handles, after, xml_from_package_file_stat, hstat,
        List.foldl_append, hlog, handle_step]
    · simp [open_handles, after, xml_from_package_file_stat, xml_from_package_file_gen, hstat,
        List.foldl_append, hlog, handle_step]

/-! ## Properties of `init_package_parser` -/

/-- C9, as stated, fails: when `rpmtsCreate` returns `NULL`,
`init_package_parser` run on the initial globals still leaves `initialized`
at 1 (it is already 1 when `rpmtsCreate` is called), and it calls
`rpmtsSetVSFlags` on the `NULL` verifier. -/
theorem failed_create_still_marks_initialized :
    (init_package_parser_fn rpm4Consts none ParserGlobals.initial).1
      = { initialized := 1, ts := none } ∧
    (init_package_parser_fn rpm4Consts none ParserGlobals.initial).1.initialized ≠ 0 ∧
    (init_package_parser_fn rpm4Consts none ParserGlobals.initial).2
      = [({ initialized := 1, ts := none }, Call.rpmReadConfigFiles),
         ({ initialized := 1, ts := none }, Call.rpmtsCreate),
         ({ initialized := 1, ts := none },
            Call.g_critical "init_package_parser: rpmtsCreate() failed"),
         ({ initialized := 1, ts := none }, Call.rpmtsSetVSFlags none 986881)] := by
  refine ⟨rfl, ?_, rfl⟩
  decide

/-- C9, amended: `init_package_parser` sets `initialized` to 1 on every call,
before `rpmtsCreate` is attempted (the first two external calls,
`rpmReadConfigFiles` and `rpmtsCreate`, are made with `initialized` already 1
and `ts` still at its old value, and every call is made with `initialized` at
1) and whether or not `rpmtsCreate` succeeds; it stores what `rpmtsCreate`
returned in `ts`; a `NULL` return is reported by a `g_critical` log; when
`rpmtsCreate` returns a verifier, nothing is logged and the only flag call is
`rpmtsSetVSFlags` on that verifier with exactly
`_RPMVSF_NODIGESTS | _RPMVSF_NOSIGNATURES | RPMVSF_NOHDRCHK`. -/
theorem init_package_parser_spec (consts : VSFlagConsts) (created : Option rpmts)
    (g : ParserGlobals) :
    (init_package_parser_fn consts created g).1 = { initialized := 1, ts := created } ∧
    (init_package_parser_fn consts created g).2.take 2
      = [({ initialized := 1, ts := g.ts }, Call.rpmReadConfigFiles),
         ({ initialized := 1, ts := g.ts }, Call.rpmtsCreate)] ∧
    (∀ e ∈ (init_package_parser_fn consts created g).2, e.1.initialized = 1) ∧
    (created = none →
      (({ initialized := 1, ts := none } : ParserGlobals),
        Call.g_critical "init_package_parser: rpmtsCreate() failed")
        ∈ (init_package_parser_fn consts created g).2) ∧
    (∀ t, created = some t →
      (init_package_parser_fn consts created g).2
        = [({ initialized := 1, ts := g.ts }, Call.rpmReadConfigFiles),
           ({ initialized := 1, ts := g.ts }, Call.rpmtsCreate),
           ({ initialized := 1, ts := some t },
             Call.rpmtsSetVSFlags (some t)
               (consts._RPMVSF_NODIGESTS ||| consts._RPMVSF_NOSIGNATURES |||
                 consts.RPMVSF_NOHDRCHK))]) := by
  refine ⟨rfl, rfl, ?_, ?_, ?_⟩
  · intro e he
    cases created with
    | none =>
      simp [init_package_parser_fn] at he
      rcases he with h | h | h | h <;> rw [h]
    | some t =>
      simp [init_package_parser_fn] at he
      rcases he with h | h | h <;> rw [h]
  · rintro rfl
    simp [init_package_parser_fn]
  · rintro t rfl
    simp [init_package_parser_fn]

/-- Witness of C9 amended, with the flag values of rpm 4.x and verifier 5:
both `rpmReadConfigFiles` and `rpmtsCreate` are called with `initialized`
already 1 and `ts` still `NULL`. -/
theorem init_package_parser_spec_witness :
    (some 5 : Option rpmts) = some 5 ∧
    (init_package_parser_fn rpm4Consts (some 5) ParserGlobals.initial).2
      = [({ initialized := 1, ts := none }, Call.rpmReadConfigFiles),
         ({ initialized := 1, ts := none }, Call.rpmtsCreate),
         ({ initialized := 1, ts := some 5 }, Call.rpmtsSetVSFlags (some 5) 986881)] :=
  ⟨rfl, (init_package_parser_spec rpm4Consts (some 5) ParserGlobals.initial).2.2.2.2 5 rfl⟩

/-! ## Properties of `getitem` and `length` -/

theorem strcmp_eq_zero (a b : String) : strcmp a b = 0 ↔ a = b := by
  unfold strcmp
  split_ifs <;> simp_all

theorem lookup_cons_ite {β : Type} (k a : String) (b : β) (t : List (String × β)) :
    List.lookup k ((a, b) :: t) = if k = a then some b else List.lookup k t := by
  by_cases h : k = a
  · simp [List.lookup, h]
  · have : (k == a) = false := by simpa using h
    simp [List.lookup, h, this]

/-- On an initialised object and a `str` key, `getitem` looks the C string of
the key up in `getitem_table`. -/
theorem getitem_eq_lookup (ml : cr_MetadataLocation) (s : String) :
    getitem ⟨some ml⟩ (.PyString s) =
      py_of_value ((getitem_table.lookup (PyString_AsString s)).bind fun field => field ml) := by
  simp only [getitem, check_MetadataLocationStatus, strcmp_eq_zero, getitem_table,
    lookup_cons_ite]
  generalize PyString_AsString s = key
  by_cases h1 : key = "primary"
  · simp [h1]
  by_cases h2 : key = "filelists"
  · simp [h2]
  by_cases h3 : key = "other"
  · simp [h3]
  by_cases h4 : key = "primary_db"
  · simp [h4]
  by_cases h5 : key = "filelists_db"
  · simp [h5]
  by_cases h6 : key = "other_db"
  · simp [h6]
  by_cases h7 : key = "group"
  · simp [h7]
  by_cases h8 : key = "group_gz"
  · simp [h8]
  by_cases h9 : key = "updateinfo"
  · simp [h9]
  simp [h1, h2, h3, h4, h5, h6, h7, h8, h9]

/-- C10, as stated, fails: the `str` key made of "primary", a NUL byte and "x"
is none of the nine keys, yet on the sample object `getitem` returns the
`pri_xml_href` field instead of `None`, because `strcmp` stops at the NUL. -/
theorem nul_byte_key_is_truncated :
    "primary\x00x" ∉ getitem_table.map Prod.fst ∧
    PyString_AsString "primary\x00x" = "primary" ∧
    getitem ⟨some sampleLocation⟩ (.PyString "primary\x00x")
      = .PyString "repodata/primary.xml.gz" ∧
    getitem ⟨some sampleLocation⟩ (.PyString "primary\x00x") ≠ .Py_None := by
  refine ⟨by decide, by decide, by decide, by decide⟩

/-- C10, amended: on an initialised object and a `str` key, `getitem` is the
lookup of the key's C string (its bytes up to the first NUL byte, the whole key
when it has none) in the nine-entry table; it returns `None` exactly when that
C string is none of the nine keys or the selected field is `NULL`; the table
has nine pairwise distinct keys, the value `length` reports for an initialised
object; on an object whose `ml` is `NULL`, `length` is 0 and `getitem` raises
an error. -/
theorem getitem_is_table_lookup (ml : cr_MetadataLocation) (s : String) (pykey : PyObject) :
    getitem ⟨some ml⟩ (.PyString s) =
      py_of_value ((getitem_table.lookup (PyString_AsString s)).bind fun field => field ml) ∧
    (getitem ⟨some ml⟩ (.PyString s) = .Py_None ↔
      (PyString_AsString s ∉ getitem_table.map Prod.fst ∨
        ∃ field, getitem_table.lookup (PyString_AsString s) = some field ∧ field ml = none)) ∧
    (Char.ofNat 0 ∉ s.data → PyString_AsString s = s) ∧
    getitem_table.length = 9 ∧
    (getitem_table.map Prod.fst).Nodup ∧
    length ⟨some ml⟩ = 9 ∧
    length ⟨none⟩ = 0 ∧
    check_MetadataLocationStatus ⟨none⟩ = -1 ∧
    getitem ⟨none⟩ pykey
      = .raised "CrErr_Exception" "Improper createrepo_c MetadataLocation object." := by
  refine ⟨getitem_eq_lookup ml s, ?_, ?_, rfl, by decide, rfl, rfl, rfl, rfl⟩
  · rw [getitem_eq_lookup]
    cases hl : getitem_table.lookup (PyString_AsString s) with
    | none =>
      have hmem : PyString_AsString s ∉ getitem_table.map Prod.fst := by
        intro hmem
        rw [List.mem_map] at hmem
        obtain ⟨⟨k, f⟩, hkf, hk⟩ := hmem
        have := List.lookup_eq_none_iff.mp hl (k, f) hkf
        simp at hk
        simp [hk] at this
      simp [py_of_value, hmem]
    | some field =>
      have hmem : PyString_AsString s ∈ getitem_table.map Prod.fst := by
        by_contra hmem
        have : getitem_table.lookup (PyString_AsString s) = none := by
          rw [List.lookup_eq_none_iff]
          intro p hp
          rw [bne_iff_ne]
          intro hpe
          apply hmem
          rw [List.mem_map]
          exact ⟨p, hp, hpe.symm⟩
        rw [this] at hl
        cases hl
      cases hf : field ml with
      | none => simp [py_of_value, hf, hmem]
      | some v => simp [py_of_value, hf, hmem]
  · intro h
    unfold PyString_AsString
    have : s.data.takeWhile (fun c => c ≠ Char.ofNat 0) = s.data := by
      rw [List.takeWhile_eq_self_iff]
      intro c hc
      simp only [ne_eq, decide_eq_true_eq]
      rintro rfl
      exact h hc
    rw [this]

/-- Witness of C10 amended at the NUL-free key "primary_db". -/
theorem getitem_is_table_lookup_witness :
    Char.ofNat 0 ∉ "primary_db".data ∧ PyString_AsString "primary_db" = "primary_db" :=
  ⟨by decide,
   (getitem_is_table_lookup sampleLocation "primary_db" PyObject.other).2.2.1 (by decide)⟩

end Createrepo
